import Mathlib

/-!
Verification of the HerePy routing client (herepy/routing_api.py).

The embedding mirrors the Python source. Decoded JSON documents are
modelled by `PyVal`; request-parameter dictionaries by association lists
from parameter names to `Option String` values (Python strings, with
`Option.none` standing for the Python value None, which the credential
fields can hold). Coordinates are embedded by their Python string
rendering: `str.format` interpolates each coordinate through `str()`, so
a waypoint array `[lat, lon]` appears here as the pair of the rendered
latitude and longitude strings.
-/

/-- Decoded JSON values as produced by `json.loads`: Python None, booleans,
integers, strings, lists and dictionaries. -/
inductive PyVal where
  | null
  | bool (b : Bool)
  | int (n : Int)
  | str (s : String)
  | list (xs : List PyVal)
  | dict (entries : List (String × PyVal))

/-- Python `dict.get(key)` on a decoded JSON object: the stored value when
the key is present, else Python None (modelled as `Option.none`). Keys of a
Python dict are unique, so first-match lookup is exact. -/
def pyDictGet (d : List (String × PyVal)) (k : String) : Option PyVal :=
  (d.find? (fun kv => kv.1 == k)).map (fun kv => kv.2)

/-- Python `dict.get(key, default)`: the stored value when the key is
present (even when that stored value is None), else the default. -/
def pyDictGetD (d : List (String × PyVal)) (k : String) (dflt : PyVal) : PyVal :=
  match pyDictGet d k with
  | some v => v
  | Option.none => dflt

/-- Python truth of `x != None` for `x = dict.get(key)`: false when the key
is absent (`get` returned None) and when the stored value is JSON null
(decoded to None); true otherwise. -/
def pyIsNone : Option PyVal → Bool
  | Option.none => true
  | some PyVal.null => true
  | some _ => false

/-- herepy.error.HEREError: a typed error wrapper carrying the message
taken from the error payload (any decoded JSON value, since
`jsonData.get` can return any stored value). -/
structure HEREError where
  message : PyVal

/-- Modelled from the spec: `RoutingResponse` (herepy/models.py is not under
src/). The spec describes a ResponseModel as a typed container
"constructed exactly once from a decoded JSON object", pure data with no
behaviour; it is embedded as a wrapper around the decoded document. -/
structure RoutingResponse where
  jsondict : List (String × PyVal)

/-- Modelled from the spec: `RoutingResponse.new_from_jsondict`
(herepy/models.py is not under src/): total construction of the response
model from the decoded JSON document. -/
def RoutingResponse.new_from_jsondict (jsonData : List (String × PyVal)) : RoutingResponse :=
  ⟨jsonData⟩

/-- Modelled from the spec: `RouteMode` (herepy/here_enum.py is not under
src/). The spec describes a closed enumerator set with no behaviour
beyond stringification; the members used by routing_api.py are listed,
with the stringification the spec shows (`mode=car;fastest`). -/
inductive RouteMode where
  | car
  | pedestrian
  | publicTransport
  | truck
  | fastest
  | shortest
  deriving DecidableEq

/-- Modelled from the spec: the string form `m.__str__()` of a mode
enumerator, as the spec renders it in `mode=car;fastest`. -/
def RouteMode.str : RouteMode → String
  | RouteMode.car => "car"
  | RouteMode.pedestrian => "pedestrian"
  | RouteMode.publicTransport => "publicTransport"
  | RouteMode.truck => "truck"
  | RouteMode.fastest => "fastest"
  | RouteMode.shortest => "shortest"

/-- State of a RoutingApi instance: credentials (Python strings or None),
the fixed base URL, and the request timeout. -/
structure RoutingApi where
  _app_id : Option String
  _app_code : Option String
  _baseUrl : String
  _timeout : Int

/-- RoutingApi.SetCredentials: assigns the two credential fields. -/
def RoutingApi.SetCredentials (api : RoutingApi)
    (app_id app_code : Option String) : RoutingApi :=
  { api with _app_id := app_id, _app_code := app_code }

/-- RoutingApi.__init__: sets the credentials via SetCredentials, the fixed
base URL, and the timeout. Python evaluates `if timeout:` by truthiness,
so a supplied timeout of 0 (and an absent timeout) gives the default 20. -/
def RoutingApi.init (app_id app_code : Option String) (timeout : Option Int) : RoutingApi :=
  { _app_id := app_id
    _app_code := app_code
    _baseUrl := "https://route.cit.api.here.com/routing/7.2/calculateroute.json"
    _timeout :=
      match timeout with
      | some t => if t ≠ 0 then t else 20
      | Option.none => 20 }

/-- Python string slice `s[:-1]`: all characters of `s` but the last. -/
def pySliceDropLast (s : String) : String :=
  ⟨s.data.dropLast⟩

/-- RoutingApi.__prepare_mode_values: appends each mode string followed by a
semicolon, then drops the final character. -/
def prepare_mode_values (modes : List RouteMode) : String :=
  pySliceDropLast (modes.foldl (fun mode_values m => mode_values ++ m.str ++ ";") "")

/-- RoutingApi.__get, after the HTTP GET and JSON decoding: the dispatch on
the decoded document. The network call and the decoding are outside the
model; `caller` is the name of the calling operation that Python reads from
the call stack (`sys._getframe(1).f_code.co_name`). Returns the success
model when the document holds a top-level non-null `response` value, else
the HEREError built from the `details` field or the synthesized message. -/
def RoutingApi.__get (jsonData : List (String × PyVal)) (caller : String) :
    Sum RoutingResponse HEREError :=
  if pyIsNone (pyDictGet jsonData "response") = false then
    Sum.inl (RoutingResponse.new_from_jsondict jsonData)
  else
    Sum.inr (HEREError.mk (pyDictGetD jsonData "details"
      (PyVal.str ("Error occured on " ++ caller))))

/-- RoutingApi.CarRoute: the parameter dictionary it assembles and hands to
the dispatch routine. -/
def RoutingApi.CarRoute_data (api : RoutingApi)
    (waypoint_a waypoint_b : String × String)
    (modes : List RouteMode) : List (String × Option String) :=
  [("waypoint0", some (waypoint_a.1 ++ "," ++ waypoint_a.2)),
   ("waypoint1", some (waypoint_b.1 ++ "," ++ waypoint_b.2)),
   ("mode", some (prepare_mode_values modes)),
   ("app_id", api._app_id),
   ("app_code", api._app_code),
   ("departure", some "now")]

/-- Default modes of CarRoute. -/
def defaultCarModes : List RouteMode := [RouteMode.car, RouteMode.fastest]

/-- RoutingApi.PedastrianRoute: the parameter dictionary it assembles. -/
def RoutingApi.PedastrianRoute_data (api : RoutingApi)
    (waypoint_a waypoint_b : String × String)
    (modes : List RouteMode) : List (String × Option String) :=
  [("waypoint0", some (waypoint_a.1 ++ "," ++ waypoint_a.2)),
   ("waypoint1", some (waypoint_b.1 ++ "," ++ waypoint_b.2)),
   ("mode", some (prepare_mode_values modes)),
   ("app_id", api._app_id),
   ("app_code", api._app_code)]

/-- RoutingApi.IntermediateRoute: the parameter dictionary it assembles. -/
def RoutingApi.IntermediateRoute_data (api : RoutingApi)
    (waypoint_a waypoint_b waypoint_c : String × String)
    (modes : List RouteMode) : List (String × Option String) :=
  [("waypoint0", some (waypoint_a.1 ++ "," ++ waypoint_a.2)),
   ("waypoint1", some (waypoint_b.1 ++ "," ++ waypoint_b.2)),
   ("waypoint2", some (waypoint_c.1 ++ "," ++ waypoint_c.2)),
   ("mode", some (prepare_mode_values modes)),
   ("app_id", api._app_id),
   ("app_code", api._app_code)]

/-- RoutingApi.PublicTransport: the parameter dictionary it assembles; the
boolean combine_change is rendered by the Python conditional expression
quoting the literal strings. -/
def RoutingApi.PublicTransport_data (api : RoutingApi)
    (waypoint_a waypoint_b : String × String)
    (combine_change : Bool)
    (modes : List RouteMode) : List (String × Option String) :=
  [("waypoint0", some (waypoint_a.1 ++ "," ++ waypoint_a.2)),
   ("waypoint1", some (waypoint_b.1 ++ "," ++ waypoint_b.2)),
   ("mode", some (prepare_mode_values modes)),
   ("combine_change", some (if combine_change == true then "true" else "false")),
   ("app_id", api._app_id),
   ("app_code", api._app_code)]

/-- RoutingApi.LocationNearMotorway: the parameter dictionary it assembles.
Its waypoint1 format string is the literal `street!!` followed by the two
interpolated coordinates. -/
def RoutingApi.LocationNearMotorway_data (api : RoutingApi)
    (waypoint_a waypoint_b : String × String)
    (modes : List RouteMode) : List (String × Option String) :=
  [("waypoint0", some (waypoint_a.1 ++ "," ++ waypoint_a.2)),
   ("waypoint1", some ("street!!" ++ waypoint_b.1 ++ "," ++ waypoint_b.2)),
   ("mode", some (prepare_mode_values modes)),
   ("app_id", api._app_id),
   ("app_code", api._app_code)]

/-- RoutingApi.TruckRoute: the parameter dictionary it assembles. -/
def RoutingApi.TruckRoute_data (api : RoutingApi)
    (waypoint_a waypoint_b : String × String)
    (modes : List RouteMode) : List (String × Option String) :=
  [("waypoint0", some (waypoint_a.1 ++ "," ++ waypoint_a.2)),
   ("waypoint1", some (waypoint_b.1 ++ "," ++ waypoint_b.2)),
   ("mode", some (prepare_mode_values modes)),
   ("app_id", api._app_id),
   ("app_code", api._app_code)]

/-- Join a list of strings with a separator: each element in order,
separated by the separator, no leading or trailing separator. -/
def joinWith (sep : String) : List String → String
  | [] => ""
  | [s] => s
  | s :: r :: rest => s ++ sep ++ joinWith sep (r :: rest)

/-- Unreserved URL characters, kept verbatim by percent encoding. -/
def urlUnreserved (c : Char) : Bool :=
  c.isAlphanum || c == '-' || c == '_' || c == '.' || c == '~'

/-- Upper-case hexadecimal digit of a value below 16. -/
def hexDigit (n : Nat) : Char :=
  if n < 10 then Char.ofNat (48 + n) else Char.ofNat (55 + n)

/-- Percent encoding of one character: unreserved characters stand
verbatim, others as a percent escape of the code point (ASCII scope). -/
def percentEncodeChar (c : Char) : List Char :=
  if urlUnreserved c then [c]
  else ['%', hexDigit (c.toNat / 16 % 16), hexDigit (c.toNat % 16)]

/-- Percent encoding of a string, character by character. -/
def percentEncode (s : String) : String :=
  ⟨(s.data.map percentEncodeChar).flatten⟩

/-- Python rendering of a parameter value in the query string; the absent
credential value None renders as the string Python prints for it. -/
def pyParamStr : Option String → String
  | some s => s
  | Option.none => "None"

/-- Modelled from the spec: `Utils.BuildUrl` (herepy/utils.py is not under
src/). The spec contract: "given a base URL string and a mapping of extra
query parameters, produce a single URL with all parameters
percent-encoded and appended in a stable order". Each pair becomes
`key=value` percent-encoded, joined with ampersands after the base URL
and a question mark, in the order of the mapping. -/
def Utils.BuildUrl (baseUrl : String) (extra_params : List (String × Option String)) : String :=
  baseUrl ++ "?" ++
    joinWith "&" (extra_params.map (fun kv =>
      percentEncode kv.1 ++ "=" ++ percentEncode (pyParamStr kv.2)))

/-- Substring relation on strings, at the character level. -/
def strContains (needle haystack : String) : Prop :=
  ∃ l r, haystack.data = l ++ (needle.data ++ r)

/-- Concatenation of the mode strings each followed by a semicolon, the
value the foldl of prepare_mode_values accumulates. -/
def modesConcat : List RouteMode → String
  | [] => ""
  | m :: ms => m.str ++ ";" ++ modesConcat ms

/-- Canned success fixture: a decoded JSON document with a top-level
response object. -/
def successFixture : List (String × PyVal) :=
  [("response", PyVal.dict [("route", PyVal.list [])])]

/-- C10: the credentials setter updates exactly the two credential fields
and leaves the base URL and the timeout of the client unchanged. -/
theorem C10_set_credentials_frame (api : RoutingApi) (i c : Option String) :
    (api.SetCredentials i c)._app_id = i ∧
    (api.SetCredentials i c)._app_code = c ∧
    (api.SetCredentials i c)._baseUrl = api._baseUrl ∧
    (api.SetCredentials i c)._timeout = api._timeout :=
  ⟨rfl, rfl, rfl, rfl⟩

/-- C9 counterexample: a timeout of 0 supplied at construction is not
stored; Python truthiness of the guard makes the client fall back to the
default 20, so the stored timeout differs from the supplied value. -/
theorem C9_counterexample :
    (RoutingApi.init (some "app_id") (some "app_code") (some 0))._timeout = 20 ∧
    (RoutingApi.init (some "app_id") (some "app_code") (some 0))._timeout ≠ 0 := by
  constructor
  · rfl
  · decide

/-- C9 amended: the stored timeout defaults to 20 when no timeout is given
at construction, and every nonzero supplied timeout is stored as given; a
supplied timeout of 0 is treated as absent and yields the default 20. -/
theorem C9_timeout (a c : Option String) (t : Int) (h : t ≠ 0) :
    (RoutingApi.init a c Option.none)._timeout = 20 ∧
    (RoutingApi.init a c (some t))._timeout = t ∧
    (RoutingApi.init a c (some 0))._timeout = 20 := by
  refine ⟨rfl, ?_, rfl⟩
  simp [RoutingApi.init, h]

/-- Witness for C9 at concrete inputs. -/
theorem C9_timeout_witness :
    (RoutingApi.init (some "x") (some "y") Option.none)._timeout = 20 ∧
    (RoutingApi.init (some "x") (some "y") (some 7))._timeout = 7 ∧
    (RoutingApi.init (some "x") (some "y") (some 0))._timeout = 20 :=
  C9_timeout (some "x") (some "y") 7 (by decide)

/-- C7: the combine_change parameter of the public transport operation is
the literal string true when the input boolean is true and the literal
string false when it is false, for every state and every other input. -/
theorem C7_combine_change (api : RoutingApi) (a b : String × String) (modes : List RouteMode) :
    List.lookup "combine_change" (api.PublicTransport_data a b true modes) =
      some (some "true") ∧
    List.lookup "combine_change" (api.PublicTransport_data a b false modes) =
      some (some "false") :=
  ⟨rfl, rfl⟩

/-- C5: the dispatch routine yields exactly one outcome on every decoded
document: either a success model and no error, or an error and no success
model, never both and never neither. -/
theorem C5_exactly_one_outcome (jsonData : List (String × PyVal)) (caller : String) :
    ((∃ r, RoutingApi.__get jsonData caller = Sum.inl r) ∧
      ∀ e, RoutingApi.__get jsonData caller ≠ Sum.inr e) ∨
    ((∃ e, RoutingApi.__get jsonData caller = Sum.inr e) ∧
      ∀ r, RoutingApi.__get jsonData caller ≠ Sum.inl r) := by
  cases h : RoutingApi.__get jsonData caller with
  | inl r => exact Or.inl ⟨⟨r, rfl⟩, fun e he => Sum.noConfusion he⟩
  | inr e => exact Or.inr ⟨⟨e, rfl⟩, fun r hr => Sum.noConfusion hr⟩

/-- C2: when the decoded document holds a top-level response field with a
non-null value, the dispatch routine returns the response model built from
the document and never an error. -/
theorem C2_dispatch_success (jsonData : List (String × PyVal)) (caller : String) (v : PyVal)
    (hv : pyDictGet jsonData "response" = some v) (hnn : v ≠ PyVal.null) :
    RoutingApi.__get jsonData caller =
      Sum.inl (RoutingResponse.new_from_jsondict jsonData) ∧
    ∀ e, RoutingApi.__get jsonData caller ≠ Sum.inr e := by
  have hfalse : pyIsNone (pyDictGet jsonData "response") = false := by
    rw [hv]
    cases v
    · exact absurd rfl hnn
    all_goals rfl
  refine ⟨?_, ?_⟩
  · simp [RoutingApi.__get, hfalse]
  · intro e
    simp [RoutingApi.__get, hfalse]

/-- Witness for C2 at a concrete success document. -/
theorem C2_dispatch_success_witness :
    RoutingApi.__get [("response", PyVal.dict [])] "CarRoute" =
      Sum.inl (RoutingResponse.new_from_jsondict [("response", PyVal.dict [])]) ∧
    ∀ e, RoutingApi.__get [("response", PyVal.dict [])] "CarRoute" ≠ Sum.inr e :=
  C2_dispatch_success [("response", PyVal.dict [])] "CarRoute" (PyVal.dict []) rfl
    (fun h => PyVal.noConfusion h)

/-- C3: when the decoded document lacks the top-level response field, the
dispatch routine returns an error whose message is the stored details
value when that key is present, and otherwise the synthesized message
naming the calling operation. -/
theorem C3_dispatch_error (jsonData : List (String × PyVal)) (caller : String)
    (hresp : pyDictGet jsonData "response" = Option.none) :
    (∀ v, pyDictGet jsonData "details" = some v →
      RoutingApi.__get jsonData caller = Sum.inr (HEREError.mk v)) ∧
    (pyDictGet jsonData "details" = Option.none →
      RoutingApi.__get jsonData caller =
        Sum.inr (HEREError.mk (PyVal.str ("Error occured on " ++ caller)))) := by
  have htrue : pyIsNone (pyDictGet jsonData "response") = true := by
    rw [hresp]
    rfl
  constructor
  · intro v hv
    simp [RoutingApi.__get, htrue, pyDictGetD, hv]
  · intro hv
    simp [RoutingApi.__get, htrue, pyDictGetD, hv]

/-- Witness for C3 at concrete error documents, one with a details field
and one without. -/
theorem C3_dispatch_error_witness :
    RoutingApi.__get [("details", PyVal.str "Invalid app_id")] "CarRoute" =
      Sum.inr (HEREError.mk (PyVal.str "Invalid app_id")) ∧
    RoutingApi.__get [] "PublicTransport" =
      Sum.inr (HEREError.mk (PyVal.str ("Error occured on " ++ "PublicTransport"))) :=
  ⟨(C3_dispatch_error [("details", PyVal.str "Invalid app_id")] "CarRoute" rfl).1
      (PyVal.str "Invalid app_id") rfl,
   (C3_dispatch_error [] "PublicTransport" rfl).2 rfl⟩

/-- C8: the driving route operation at waypoints 52.5,13.4 and 52.4,13.5
with the default modes assembles exactly the expected parameter
dictionary, with mode car;fastest, departure now and both waypoints; the
dispatch of a canned success document yields the populated response
model. -/
theorem C8_car_route_scenario :
    (RoutingApi.init (some "app_id") (some "app_code") Option.none).CarRoute_data
        ("52.5", "13.4") ("52.4", "13.5") defaultCarModes =
      [("waypoint0", some "52.5,13.4"),
       ("waypoint1", some "52.4,13.5"),
       ("mode", some "car;fastest"),
       ("app_id", some "app_id"),
       ("app_code", some "app_code"),
       ("departure", some "now")] ∧
    RoutingApi.__get successFixture "CarRoute" =
      Sum.inl (RoutingResponse.new_from_jsondict successFixture) := by
  constructor
  · rfl
  · rfl

/-- C1 counterexample: the motorway operation formats its waypoint1 with a
literal street prefix, so the entry is not the bare latitude, comma,
longitude form the claim states. -/
theorem C1_counterexample :
    List.lookup "waypoint1"
        ((RoutingApi.init (some "app_id") (some "app_code") Option.none).LocationNearMotorway_data
          ("52.5", "13.4") ("52.4", "13.5") defaultCarModes) =
      some (some "street!!52.4,13.5") ∧
    ("street!!52.4,13.5" : String) ≠ "52.4,13.5" := by
  constructor
  · rfl
  · decide

/-- C1 amended: every route operation assembles exactly one waypoint0
entry, the latitude and longitude joined by a single comma with nothing
added, and exactly one waypoint1 entry of the same form, except the
motorway operation whose waypoint1 value carries the literal prefix
street followed by two exclamation marks before the coordinates. -/
theorem C1_waypoint_format (api : RoutingApi) (a b c : String × String)
    (cc : Bool) (modes : List RouteMode) :
    ((api.CarRoute_data a b modes).filter (fun kv => kv.1 == "waypoint0") =
        [("waypoint0", some (a.1 ++ "," ++ a.2))] ∧
      (api.CarRoute_data a b modes).filter (fun kv => kv.1 == "waypoint1") =
        [("waypoint1", some (b.1 ++ "," ++ b.2))]) ∧
    ((api.PedastrianRoute_data a b modes).filter (fun kv => kv.1 == "waypoint0") =
        [("waypoint0", some (a.1 ++ "," ++ a.2))] ∧
      (api.PedastrianRoute_data a b modes).filter (fun kv => kv.1 == "waypoint1") =
        [("waypoint1", some (b.1 ++ "," ++ b.2))]) ∧
    ((api.IntermediateRoute_data a b c modes).filter (fun kv => kv.1 == "waypoint0") =
        [("waypoint0", some (a.1 ++ "," ++ a.2))] ∧
      (api.IntermediateRoute_data a b c modes).filter (fun kv => kv.1 == "waypoint1") =
        [("waypoint1", some (b.1 ++ "," ++ b.2))]) ∧
    ((api.PublicTransport_data a b cc modes).filter (fun kv => kv.1 == "waypoint0") =
        [("waypoint0", some (a.1 ++ "," ++ a.2))] ∧
      (api.PublicTransport_data a b cc modes).filter (fun kv => kv.1 == "waypoint1") =
        [("waypoint1", some (b.1 ++ "," ++ b.2))]) ∧
    ((api.LocationNearMotorway_data a b modes).filter (fun kv => kv.1 == "waypoint0") =
        [("waypoint0", some (a.1 ++ "," ++ a.2))] ∧
      (api.LocationNearMotorway_data a b modes).filter (fun kv => kv.1 == "waypoint1") =
        [("waypoint1", some ("street!!" ++ b.1 ++ "," ++ b.2))]) ∧
    ((api.TruckRoute_data a b modes).filter (fun kv => kv.1 == "waypoint0") =
        [("waypoint0", some (a.1 ++ "," ++ a.2))] ∧
      (api.TruckRoute_data a b modes).filter (fun kv => kv.1 == "waypoint1") =
        [("waypoint1", some (b.1 ++ "," ++ b.2))]) :=
  ⟨⟨rfl, rfl⟩, ⟨rfl, rfl⟩, ⟨rfl, rfl⟩, ⟨rfl, rfl⟩, ⟨rfl, rfl⟩, ⟨rfl, rfl⟩⟩

/-- Unfolding of modesConcat on a cons cell. -/
theorem modesConcat_cons (m : RouteMode) (ms : List RouteMode) :
    modesConcat (m :: ms) = m.str ++ ";" ++ modesConcat ms :=
  rfl

/-- Appending the empty string on the right is the identity. -/
theorem str_append_empty (a : String) : a ++ "" = a := by
  apply String.ext
  rw [String.data_append]
  simp

/-- Appending the empty string on the left is the identity. -/
theorem str_empty_append (a : String) : "" ++ a = a := by
  apply String.ext
  rw [String.data_append]
  rfl

/-- The foldl of prepare_mode_values accumulates the concatenation of the
mode strings each followed by a semicolon. -/
theorem foldl_mode_values (modes : List RouteMode) : ∀ acc : String,
    modes.foldl (fun mode_values m => mode_values ++ m.str ++ ";") acc =
      acc ++ modesConcat modes := by
  induction modes with
  | nil =>
    intro acc
    simp [modesConcat, str_append_empty]
  | cons m ms ih =>
    intro acc
    rw [List.foldl_cons, ih, modesConcat_cons]
    apply String.ext
    simp [String.data_append, List.append_assoc]

/-- Character data of the modes concatenation on a cons cell. -/
theorem modesConcat_cons_data (m : RouteMode) (ms : List RouteMode) :
    (modesConcat (m :: ms)).data = m.str.data ++ ';' :: (modesConcat ms).data := by
  rw [modesConcat_cons, String.data_append, String.data_append]
  simp [List.append_assoc]

/-- The modes concatenation of a nonempty list has nonempty data. -/
theorem modesConcat_data_ne_nil (m : RouteMode) (ms : List RouteMode) :
    (modesConcat (m :: ms)).data ≠ [] := by
  rw [modesConcat_cons_data]
  simp

/-- Dropping the final semicolon of the modes concatenation gives the
semicolon join of the mode strings. -/
theorem dropLast_modesConcat (modes : List RouteMode) (h : modes ≠ []) :
    pySliceDropLast (modesConcat modes) = joinWith ";" (modes.map RouteMode.str) := by
  induction modes with
  | nil => exact absurd rfl h
  | cons m ms ih =>
    cases ms with
    | nil =>
      apply String.ext
      show (modesConcat [m]).data.dropLast = (joinWith ";" [m.str]).data
      rw [modesConcat_cons_data]
      show (m.str.data ++ [';']).dropLast = m.str.data
      rw [List.dropLast_concat]
    | cons m2 ms2 =>
      apply String.ext
      show (modesConcat (m :: m2 :: ms2)).data.dropLast =
        (joinWith ";" ((m :: m2 :: ms2).map RouteMode.str)).data
      rw [modesConcat_cons_data, List.dropLast_append_cons,
        List.dropLast_cons_of_ne_nil (modesConcat_data_ne_nil m2 ms2)]
      have hdata : (modesConcat (m2 :: ms2)).data.dropLast =
          (joinWith ";" ((m2 :: ms2).map RouteMode.str)).data :=
        congrArg String.data (ih (by simp))
      rw [hdata]
      show _ = ((m.str ++ ";" ++ joinWith ";" ((m2 :: ms2).map RouteMode.str))).data
      rw [String.data_append, String.data_append]
      simp [List.append_assoc]

/-- Every mode string is nonempty and neither starts nor ends with the
semicolon separator. -/
theorem routeModeStr_facts (m : RouteMode) :
    m.str.data ≠ [] ∧ m.str.data.head? ≠ some ';' ∧ m.str.data.getLast? ≠ some ';' := by
  cases m <;> exact ⟨by decide, by decide, by decide⟩

/-- A join headed by a string with nonempty data has nonempty data. -/
theorem joinWith_data_ne_nil (sep s : String) (rest : List String) (h : s.data ≠ []) :
    (joinWith sep (s :: rest)).data ≠ [] := by
  cases rest with
  | nil => exact h
  | cons r t =>
    show ((s ++ sep ++ joinWith sep (r :: t))).data ≠ []
    rw [String.data_append, String.data_append]
    intro hcontra
    rcases List.append_eq_nil.mp hcontra with ⟨h1, _⟩
    rcases List.append_eq_nil.mp h1 with ⟨h2, _⟩
    exact h h2

/-- The semicolon join does not start with the separator when its first
string does not. -/
theorem joinWith_head_ne (s : String) (rest : List String)
    (hne : s.data ≠ []) (hh : s.data.head? ≠ some ';') :
    (joinWith ";" (s :: rest)).data.head? ≠ some ';' := by
  cases rest with
  | nil => exact hh
  | cons r t =>
    show ((s ++ ";" ++ joinWith ";" (r :: t))).data.head? ≠ some ';'
    rw [String.data_append, String.data_append, List.append_assoc]
    cases hsd : s.data with
    | nil => exact absurd hsd hne
    | cons ch cs =>
      rw [hsd] at hh
      simp only [List.cons_append, List.head?_cons]
      simpa using hh

/-- The semicolon join does not end with the separator when none of its
strings is empty or ends with it. -/
theorem joinWith_last_ne (l : List String) (h1 : ∀ s ∈ l, s.data ≠ [])
    (h2 : ∀ s ∈ l, s.data.getLast? ≠ some ';') (hne : l ≠ []) :
    (joinWith ";" l).data.getLast? ≠ some ';' := by
  induction l with
  | nil => exact absurd rfl hne
  | cons s rest ih =>
    cases rest with
    | nil => exact h2 s (List.mem_cons_self s [])
    | cons r t =>
      show ((s ++ ";" ++ joinWith ";" (r :: t))).data.getLast? ≠ some ';'
      rw [String.data_append, String.data_append, List.getLast?_append]
      cases hg : (joinWith ";" (r :: t)).data.getLast? with
      | none =>
        exact absurd (List.getLast?_eq_none_iff.mp hg)
          (joinWith_data_ne_nil ";" r t (h1 r (List.mem_cons_of_mem s (List.mem_cons_self r t))))
      | some x =>
        have hx : (joinWith ";" (r :: t)).data.getLast? ≠ some ';' :=
          ih (fun y hy => h1 y (List.mem_cons_of_mem s hy))
            (fun y hy => h2 y (List.mem_cons_of_mem s hy)) (by simp)
        rw [hg] at hx
        rw [Option.or_some]
        exact hx

/-- C4: on every nonempty mode sequence the prepared mode parameter is the
semicolon join of the mode strings in order, and it neither starts nor
ends with the separator. -/
theorem C4_mode_join (modes : List RouteMode) (h : modes ≠ []) :
    prepare_mode_values modes = joinWith ";" (modes.map RouteMode.str) ∧
    (prepare_mode_values modes).data.head? ≠ some ';' ∧
    (prepare_mode_values modes).data.getLast? ≠ some ';' := by
  have heq : prepare_mode_values modes = joinWith ";" (modes.map RouteMode.str) := by
    unfold prepare_mode_values
    rw [foldl_mode_values modes "", str_empty_append]
    exact dropLast_modesConcat modes h
  refine ⟨heq, ?_, ?_⟩
  · rw [heq]
    cases modes with
    | nil => exact absurd rfl h
    | cons m ms =>
      rw [List.map_cons]
      exact joinWith_head_ne m.str (ms.map RouteMode.str)
        (routeModeStr_facts m).1 (routeModeStr_facts m).2.1
  · rw [heq]
    apply joinWith_last_ne
    · intro s hs
      rcases List.mem_map.mp hs with ⟨m, _, rfl⟩
      exact (routeModeStr_facts m).1
    · intro s hs
      rcases List.mem_map.mp hs with ⟨m, _, rfl⟩
      exact (routeModeStr_facts m).2.2
    · intro hmap
      exact h (List.map_eq_nil_iff.mp hmap)

/-- Witness for C4 at the default driving modes. -/
theorem C4_mode_join_witness :
    prepare_mode_values [RouteMode.car, RouteMode.fastest] =
      joinWith ";" ([RouteMode.car, RouteMode.fastest].map RouteMode.str) ∧
    (prepare_mode_values [RouteMode.car, RouteMode.fastest]).data.head? ≠ some ';' ∧
    (prepare_mode_values [RouteMode.car, RouteMode.fastest]).data.getLast? ≠ some ';' :=
  C4_mode_join [RouteMode.car, RouteMode.fastest] (by decide)

/-- Every string is a substring of itself. -/
theorem strContains_refl (s : String) : strContains s s :=
  ⟨[], [], by simp⟩

/-- A substring of a string is a substring of any left extension. -/
theorem strContains_append_left (pre n h : String) (hc : strContains n h) :
    strContains n (pre ++ h) := by
  rcases hc with ⟨l, r, hd⟩
  exact ⟨pre.data ++ l, r, by rw [String.data_append, hd, List.append_assoc]⟩

/-- A substring of a string is a substring of any right extension. -/
theorem strContains_append_right (n h post : String) (hc : strContains n h) :
    strContains n (h ++ post) := by
  rcases hc with ⟨l, r, hd⟩
  refine ⟨l, r ++ post.data, ?_⟩
  rw [String.data_append, hd]
  simp [List.append_assoc]

/-- Every member of the joined list is a substring of the join. -/
theorem strContains_joinWith (sep : String) (s : String) (xs : List String) (hs : s ∈ xs) :
    strContains s (joinWith sep xs) := by
  induction xs with
  | nil => cases hs
  | cons x rest ih =>
    cases rest with
    | nil =>
      have hx : s = x := by simpa using hs
      rw [hx]
      exact strContains_refl x
    | cons r t =>
      rcases List.mem_cons.mp hs with heq | hmem
      · rw [heq]
        show strContains x ((x ++ sep) ++ joinWith sep (r :: t))
        exact strContains_append_right x (x ++ sep) (joinWith sep (r :: t))
          (strContains_append_right x x sep (strContains_refl x))
      · show strContains s ((x ++ sep) ++ joinWith sep (r :: t))
        exact strContains_append_left (x ++ sep) s (joinWith sep (r :: t)) (ih hmem)

/-- Every parameter pair of the mapping appears, percent encoded and joined
by the equals sign, as a substring of the built URL. -/
theorem buildUrl_contains_entry (base : String) (params : List (String × Option String))
    (k : String) (v : Option String) (hmem : (k, v) ∈ params) :
    strContains (percentEncode k ++ "=" ++ percentEncode (pyParamStr v))
      (Utils.BuildUrl base params) := by
  unfold Utils.BuildUrl
  apply strContains_append_left
  apply strContains_joinWith
  exact List.mem_map.mpr ⟨(k, v), hmem, rfl⟩

/-- When a parameter mapping carries the two concrete credential pairs, the
built URL contains both credential substrings. -/
theorem buildUrl_contains_app_creds (base : String) (params : List (String × Option String))
    (h1 : ("app_id", some "app_id") ∈ params)
    (h2 : ("app_code", some "app_code") ∈ params) :
    strContains "app_id=app_id" (Utils.BuildUrl base params) ∧
    strContains "app_code=app_code" (Utils.BuildUrl base params) := by
  constructor
  · have h := buildUrl_contains_entry base params "app_id" (some "app_id") h1
    have he : percentEncode "app_id" ++ "=" ++ percentEncode (pyParamStr (some "app_id")) =
        "app_id=app_id" := by decide
    rwa [he] at h
  · have h := buildUrl_contains_entry base params "app_code" (some "app_code") h2
    have he : percentEncode "app_code" ++ "=" ++ percentEncode (pyParamStr (some "app_code")) =
        "app_code=app_code" := by decide
    rwa [he] at h

/-- C6: every route operation always injects the two credential fields,
stored app id under app_id and stored app code under app_code, into its
parameter mapping; and with the concrete credentials app_id and app_code
every built URL contains both credential substrings, for every input. -/
theorem C6_credentials (api : RoutingApi) (a b c : String × String)
    (cc : Bool) (modes : List RouteMode) :
    (List.lookup "app_id" (api.CarRoute_data a b modes) = some api._app_id ∧
      List.lookup "app_code" (api.CarRoute_data a b modes) = some api._app_code ∧
      List.lookup "app_id" (api.PedastrianRoute_data a b modes) = some api._app_id ∧
      List.lookup "app_code" (api.PedastrianRoute_data a b modes) = some api._app_code ∧
      List.lookup "app_id" (api.IntermediateRoute_data a b c modes) = some api._app_id ∧
      List.lookup "app_code" (api.IntermediateRoute_data a b c modes) = some api._app_code ∧
      List.lookup "app_id" (api.PublicTransport_data a b cc modes) = some api._app_id ∧
      List.lookup "app_code" (api.PublicTransport_data a b cc modes) = some api._app_code ∧
      List.lookup "app_id" (api.LocationNearMotorway_data a b modes) = some api._app_id ∧
      List.lookup "app_code" (api.LocationNearMotorway_data a b modes) = some api._app_code ∧
      List.lookup "app_id" (api.TruckRoute_data a b modes) = some api._app_id ∧
      List.lookup "app_code" (api.TruckRoute_data a b modes) = some api._app_code) ∧
    ((strContains "app_id=app_id"
        (Utils.BuildUrl (RoutingApi.init (some "app_id") (some "app_code") Option.none)._baseUrl
          ((RoutingApi.init (some "app_id") (some "app_code") Option.none).CarRoute_data
            a b modes)) ∧
      strContains "app_code=app_code"
        (Utils.BuildUrl (RoutingApi.init (some "app_id") (some "app_code") Option.none)._baseUrl
          ((RoutingApi.init (some "app_id") (some "app_code") Option.none).CarRoute_data
            a b modes))) ∧
      (strContains "app_id=app_id"
        (Utils.BuildUrl (RoutingApi.init (some "app_id") (some "app_code") Option.none)._baseUrl
          ((RoutingApi.init (some "app_id") (some "app_code") Option.none).PedastrianRoute_data
            a b modes)) ∧
      strContains "app_code=app_code"
        (Utils.BuildUrl (RoutingApi.init (some "app_id") (some "app_code") Option.none)._baseUrl
          ((RoutingApi.init (some "app_id") (some "app_code") Option.none).PedastrianRoute_data
            a b modes))) ∧
      (strContains "app_id=app_id"
        (Utils.BuildUrl (RoutingApi.init (some "app_id") (some "app_code") Option.none)._baseUrl
          ((RoutingApi.init (some "app_id") (some "app_code") Option.none).IntermediateRoute_data
            a b c modes)) ∧
      strContains "app_code=app_code"
        (Utils.BuildUrl (RoutingApi.init (some "app_id") (some "app_code") Option.none)._baseUrl
          ((RoutingApi.init (some "app_id") (some "app_code") Option.none).IntermediateRoute_data
            a b c modes))) ∧
      (strContains "app_id=app_id"
        (Utils.BuildUrl (RoutingApi.init (some "app_id") (some "app_code") Option.none)._baseUrl
          ((RoutingApi.init (some "app_id") (some "app_code") Option.none).PublicTransport_data
            a b cc modes)) ∧
      strContains "app_code=app_code"
        (Utils.BuildUrl (RoutingApi.init (some "app_id") (some "app_code") Option.none)._baseUrl
          ((RoutingApi.init (some "app_id") (some "app_code") Option.none).PublicTransport_data
            a b cc modes))) ∧
      (strContains "app_id=app_id"
        (Utils.BuildUrl (RoutingApi.init (some "app_id") (some "app_code") Option.none)._baseUrl
          ((RoutingApi.init (some "app_id") (some "app_code") Option.none).LocationNearMotorway_data
            a b modes)) ∧
      strContains "app_code=app_code"
        (Utils.BuildUrl (RoutingApi.init (some "app_id") (some "app_code") Option.none)._baseUrl
          ((RoutingApi.init (some "app_id") (some "app_code") Option.none).LocationNearMotorway_data
            a b modes))) ∧
      (strContains "app_id=app_id"
        (Utils.BuildUrl (RoutingApi.init (some "app_id") (some "app_code") Option.none)._baseUrl
          ((RoutingApi.init (some "app_id") (some "app_code") Option.none).TruckRoute_data
            a b modes)) ∧
      strContains "app_code=app_code"
        (Utils.BuildUrl (RoutingApi.init (some "app_id") (some "app_code") Option.none)._baseUrl
          ((RoutingApi.init (some "app_id") (some "app_code") Option.none).TruckRoute_data
            a b modes)))) := by
  refine ⟨⟨rfl, rfl, rfl, rfl, rfl, rfl, rfl, rfl, rfl, rfl, rfl, rfl⟩, ?_, ?_, ?_, ?_, ?_, ?_⟩
  · exact buildUrl_contains_app_creds _ _
      (by simp [RoutingApi.CarRoute_data, RoutingApi.init])
      (by simp [RoutingApi.CarRoute_data, RoutingApi.init])
  · exact buildUrl_contains_app_creds _ _
      (by simp [RoutingApi.PedastrianRoute_data, RoutingApi.init])
      (by simp [RoutingApi.PedastrianRoute_data, RoutingApi.init])
  · exact buildUrl_contains_app_creds _ _
      (by simp [RoutingApi.IntermediateRoute_data, RoutingApi.init])
      (by simp [RoutingApi.IntermediateRoute_data, RoutingApi.init])
  · exact buildUrl_contains_app_creds _ _
      (by simp [RoutingApi.PublicTransport_data, RoutingApi.init])
      (by simp [RoutingApi.PublicTransport_data, RoutingApi.init])
  · exact buildUrl_contains_app_creds _ _
      (by simp [RoutingApi.LocationNearMotorway_data, RoutingApi.init])
      (by simp [RoutingApi.LocationNearMotorway_data, RoutingApi.init])
  · exact buildUrl_contains_app_creds _ _
      (by simp [RoutingApi.TruckRoute_data, RoutingApi.init])
      (by simp [RoutingApi.TruckRoute_data, RoutingApi.init])
